import Mathlib

/-!
Verification of the popcorn-benchmark simple migration tests against their
specification.

Sources embedded here:
- src/heterogeneous_test_suits/simple_mt_tests/ft2c/ft2c.c  (single-thread
  out-and-back migration test, called the ft2c variant below)
- src/heterogeneous_test_suits/simple_mt_tests/threads_never_die/tnd.c
  (multi-thread never-terminating migration test, the tnd variant below)

The external popcorn platform primitives (popcorn_getnodeinfo,
popcorn_getthreadinfo, migrate, gettid) are modelled as oracles: structures
holding the values those calls return on one invocation.  Machine ints are
modelled as Int; the only place where two's-complement representation
matters is the combined sign test on node ids, modelled with Int.lor, which
agrees with the 32-bit machine bitwise-or on every value an int can hold.
-/

/- errno values from the Linux asm-generic errno tables, used by the
   migrate wrapper's error contract (ft2c.c:46-48, tnd.c:45-47). -/
def EINVAL : Int := 22
def EAGAIN : Int := 11
def EBUSY : Int := 16

/- MAX_POPCORN_NODES comes from the external platform header; its value 32
   is attested in the repository by FT2C_NODES / TND_NODES = 32
   (ft2c.c:99, tnd.c:98) and by the rejection message, which says node ids
   must lie in 0-31 (ft2c.c:344, tnd.c:342). -/
def MAX_POPCORN_NODES : Int := 32

/- NODE_OFFLINE (ft2c.c:100, tnd.c:99). -/
def NODE_OFFLINE : Int := 0

/-- Entry of the pnodes array filled by popcorn_getnodeinfo: a per-node
status word and an architecture code. -/
structure NodeStatus where
  status : Int
  arch : Int

/-- Oracle for one call to popcorn_getnodeinfo: the returned error code,
the current node id written through the first argument, and the pnodes
table. -/
structure GetNodeInfo where
  err : Int
  current_nid : Int
  pnodes : Int → NodeStatus

/-- Oracle for one call to popcorn_getthreadinfo: the returned error code
and the node id the calling thread is reported to run on. -/
structure GetThreadInfo where
  err : Int
  current_nid : Int

/-- Embedding of node_sanity_check of the ft2c variant (ft2c.c:120-159):
a nonzero getnodeinfo error is returned as is; a current node different
from the declared local node, or an offline local or remote node, each
yield -1; otherwise 0. -/
def node_sanity_check (info : GetNodeInfo) (local_nid remote_nid : Int) : Int :=
  if info.err ≠ 0 then info.err
  else if info.current_nid ≠ local_nid then -1
  else if (info.pnodes local_nid).status = NODE_OFFLINE then -1
  else if (info.pnodes remote_nid).status = NODE_OFFLINE then -1
  else 0

/-- Embedding of thread_sanity_check (ft2c.c:161-182, tnd.c:182-201): a
nonzero getthreadinfo error is returned as is; a reported node different
from the expected one yields -1; otherwise 0. -/
def thread_sanity_check (info : GetThreadInfo) (nid : Int) : Int :=
  if info.err ≠ 0 then info.err
  else if info.current_nid ≠ nid then -1
  else 0

/-- Classified causes of a task failure, one per distinct failure message
the child thread can print. -/
inductive FailReason where
  | tidInvalid
  | nodeSanity (code : Int)
  | threadSanity (code : Int)
  | invalidDestination
  | alreadyAtDestination
  | destinationOffline
  | migrationOther (code : Int)
  | identityMismatch
  deriving DecidableEq, Repr

/-- Terminal verdict of one ft2c task. -/
inductive Verdict where
  | passed
  | failed (r : FailReason)
  deriving DecidableEq, Repr

/-- Classification of a nonzero migrate return code, mirroring the switch
in child_thread (ft2c.c:221-237, tnd.c:242-262): -EINVAL, -EBUSY, -EAGAIN
in that order, any other code falling to the default arm. -/
def classify_migrate (code : Int) : FailReason :=
  if code = -EINVAL then .invalidDestination
  else if code = -EBUSY then .alreadyAtDestination
  else if code = -EAGAIN then .destinationOffline
  else .migrationOther code

/-- Oracle values consumed by one run of the ft2c child thread, in
program order: the three gettid results, the two node sanity snapshots,
the thread sanity snapshot, and the two migrate return codes. -/
structure Ft2cEnv where
  source_tid : Int
  nodeinfo1 : GetNodeInfo
  threadinfo1 : GetThreadInfo
  migrate_out : Int
  sink_tid : Int
  migrate_back : Int
  temp_tid : Int
  nodeinfo2 : GetNodeInfo

/-- Embedding of child_thread of the ft2c variant (ft2c.c:184-307), with
REMOTE_PRINT = 0 so the sink-side node sanity check (ft2c.c:261-270) is
compiled out.  Note that the return code of the migrate call back to the
source node (ft2c.c:273) is assigned to the thread errno but never
examined by any branch; the embedding reflects that by not consulting
migrate_back. -/
def ft2c_child (env : Ft2cEnv) (source_nid sink_nid : Int) : Verdict :=
  if env.source_tid = -1 then .failed .tidInvalid
  else
    let ns1 := node_sanity_check env.nodeinfo1 source_nid sink_nid
    if ns1 ≠ 0 then .failed (.nodeSanity ns1)
    else
      let ts := thread_sanity_check env.threadinfo1 source_nid
      if ts ≠ 0 then .failed (.threadSanity ts)
      else if env.migrate_out ≠ 0 then .failed (classify_migrate env.migrate_out)
      else if env.sink_tid = -1 then .failed .tidInvalid
      else if env.temp_tid = -1 then .failed .tidInvalid
      else if env.temp_tid ≠ env.source_tid then .failed .identityMismatch
      else
        let ns2 := node_sanity_check env.nodeinfo2 source_nid sink_nid
        if ns2 ≠ 0 then .failed (.nodeSanity ns2)
        else .passed

/-- Oracle values consumed by main of the ft2c variant besides the parsed
arguments: the gettid result, the posix_memalign return code, and the
child thread's own oracle. -/
structure Ft2cMainEnv where
  source_pid : Int
  memalign_err : Int
  child : Ft2cEnv

/-- Observable outcome of one ft2c process run: the value main returns,
whether the wrong-argument-count failure message was printed, whether the
traveling thread was allocated and started, its verdict when it ran, and
whether the final TEST PASSED line was printed. -/
structure Ft2cRun where
  exit_code : Int
  usage_msg : Bool
  task_created : Bool
  task_verdict : Option Verdict
  passed_msg : Bool
  deriving DecidableEq, Repr

/-- Embedding of main of the ft2c variant (ft2c.c:309-382, x86_64 branch).
Control flow mirrored exactly: a -1 gettid returns -1 at once; an argument
count other than 3 prints the usage failure message but does not return
(ft2c.c:325-328); equal source and sink return -1 (ft2c.c:336-341); the
combined sign test and upper bounds return -1 (ft2c.c:342-347); a nonzero
posix_memalign code is returned (ft2c.c:350-354); otherwise the child runs
and main spins on the done flag.  After the join, ft2c_errno still holds
the 0 that posix_memalign returned - the join writes the thread's NULL
result over the local pointer errno_ptr, never over ft2c_errno
(ft2c.c:368-369) - so main prints the TEST PASSED line (ft2c.c:374) and
returns 0 whatever the child's verdict was. -/
def ft2c_main (argc : Int) (source_node sink_node : Int) (env : Ft2cMainEnv) : Ft2cRun :=
  if env.source_pid = -1 then ⟨-1, false, false, none, false⟩
  else
    let usage : Bool := argc != 3
    if source_node = sink_node then ⟨-1, usage, false, none, false⟩
    else if Int.lor source_node sink_node < 0 ∨ source_node ≥ MAX_POPCORN_NODES
        ∨ sink_node ≥ MAX_POPCORN_NODES then ⟨-1, usage, false, none, false⟩
    else if env.memalign_err ≠ 0 then ⟨env.memalign_err, usage, false, none, false⟩
    else ⟨0, usage, true, some (ft2c_child env.child source_node sink_node), true⟩

/-- Embedding of node_sanity_check of the tnd variant (tnd.c:144-180).
The branch structure is that of the ft2c version, but on success the
function additionally stores the display-table index arch + 1 of each of
the two nodes into the caller's arch_types array at positions local_nid
and remote_nid (tnd.c:173-174).  The embedding returns the error code
together with the list of (index, value) stores performed. -/
def tnd_node_sanity_check (info : GetNodeInfo) (local_nid remote_nid : Int) :
    Int × List (Int × Int) :=
  if info.err ≠ 0 then (info.err, [])
  else if info.current_nid ≠ local_nid then (-1, [])
  else if (info.pnodes local_nid).status = NODE_OFFLINE then (-1, [])
  else if (info.pnodes remote_nid).status = NODE_OFFLINE then (-1, [])
  else (0, [(local_nid, (info.pnodes local_nid).arch + 1),
            (remote_nid, (info.pnodes remote_nid).arch + 1)])

/- The arch_types member of struct thread in the tnd variant is declared
   as a two-element int array (tnd.c:117). -/
def ARCH_TYPES_LEN : Int := 2

/-- A store into arch_types is within bounds exactly when its index lies
in the interval from 0 to ARCH_TYPES_LEN exclusive. -/
def arch_store_in_bounds (idx : Int) : Prop := 0 ≤ idx ∧ idx < ARCH_TYPES_LEN

instance (idx : Int) : Decidable (arch_store_in_bounds idx) := by
  unfold arch_store_in_bounds; infer_instance

/-- Outcome of the pre-allocation part of main of the tnd variant: the
early return code when main returns before __init_thread_params, and
whether the wrong-argument-count failure message was printed. -/
structure TndPre where
  early_exit : Option Int
  usage_msg : Bool
  deriving DecidableEq, Repr

/-- Embedding of the part of main of the tnd variant that runs before any
task storage is allocated (tnd.c:310-345): the gettid check, the
argument-count message (which does not return, tnd.c:326-328), the
equal-ids rejection (tnd.c:337-340) and the range rejection (tnd.c:341-344).
An early_exit code means main returns with that code before
__init_thread_params; none means control reaches the allocation and spawn
phase. -/
def tnd_main_precheck (argc : Int) (source_node sink_node : Int)
    (source_pid : Int) : TndPre :=
  if source_pid = -1 then ⟨some (-1), false⟩
  else
    let usage : Bool := argc != 4
    if source_node = sink_node then ⟨some (-1), usage⟩
    else if Int.lor source_node sink_node < 0 ∨ source_node ≥ MAX_POPCORN_NODES
        ∨ sink_node ≥ MAX_POPCORN_NODES then ⟨some (-1), usage⟩
    else ⟨none, usage⟩

/-- Oracle values consumed before the tnd child thread enters its loop:
the initial gettid result and the node info snapshot for the entry sanity
check (tnd.c:206-227; the thread sanity check there is commented out). -/
structure TndEntryEnv where
  source_tid : Int
  nodeinfo : GetNodeInfo

/-- Embedding of the entry section of child_thread of the tnd variant
(tnd.c:206-227): some code means the thread sets done, bumps all_done and
returns with that error before entering the loop; none means it enters
the while(1) loop. -/
def tnd_entry (env : TndEntryEnv) (source_nid sink_nid : Int) : Option Int :=
  if env.source_tid = -1 then some (-1)
  else
    let ns := (tnd_node_sanity_check env.nodeinfo source_nid sink_nid).1
    if ns ≠ 0 then some ns
    else none

/-- Oracle values consumed by one iteration of the tnd child loop: the
outbound migrate return code, the gettid result at the sink, and the
return-hop migrate return code. -/
structure TndIterEnv where
  migrate_out : Int
  sink_tid : Int
  migrate_back : Int

/-- Result of one iteration of the while(1) loop of the tnd child
(tnd.c:236-303): either the thread sets its done flag and returns with an
error code, or it finishes the iteration with a fixed sleep of the given
number of seconds and loops again. -/
inductive IterOutcome where
  | exited (err : Int)
  | continued (sleepSecs : Nat)
  deriving DecidableEq, Repr

/-- Embedding of one iteration of the tnd child loop (tnd.c:236-303).  A
nonzero outbound migrate code is classified by the switch and exits
(tnd.c:240-269); a -1 gettid at the sink exits with -1 (tnd.c:277-283).
The return-hop migrate code (tnd.c:296) is stored into the thread's err
field but never examined by any branch, so the iteration always proceeds
to the one-second sleep (tnd.c:302) and continues. -/
def tnd_iteration (env : TndIterEnv) : IterOutcome :=
  if env.migrate_out ≠ 0 then .exited env.migrate_out
  else if env.sink_tid = -1 then .exited (-1)
  else .continued 1

/-- Running state of the tnd child loop after a number of iterations fed
from the oracle stream envs: true while no iteration has exited.  The
done flag of the thread is set exactly on the exit paths, so the thread's
done flag is still 0 precisely while this is true. -/
def tnd_loop_runs (envs : Nat → TndIterEnv) : Nat → Bool
  | 0 => true
  | n + 1 =>
    tnd_loop_runs envs n &&
      (match tnd_iteration (envs n) with
       | .continued _ => true
       | .exited _ => false)

/-- Program counter of main of the tnd variant after a successful
precheck and allocation (tnd.c:352-383). -/
inductive MainPC where
  | spawning
  | barrier1
  | blocked1
  | pollGcount
  | barrier2
  | blocked2
  | pollAllDone
  | joining
  | finished
  deriving DecidableEq, Repr

/-- Program counter of one tnd child thread.  The step from entry to
loopTop performs the entry gettid check and the node sanity check
(tnd.c:206-227); loopTop to atSink is a successful outbound migrate
(tnd.c:240); atSink to sleeping passes the sink gettid check, issues the
return-hop migrate whose code is never examined, and reaches the sleep
(tnd.c:274-302); sleeping to loopTop starts the next iteration.  The
child never touches barrier_start: child_thread of the tnd variant
contains no pthread_barrier_wait call. -/
inductive ChildPC where
  | unborn
  | entry
  | loopTop
  | atSink
  | sleeping
  | exited
  deriving DecidableEq, Repr

/-- Shared state of a tnd run after the precheck: the requested thread
count, how many threads main has created so far, the global counters
gcount and all_done (tnd.c:123-124), the number of arrivals at
barrier_start (its party count is nthreads + 1, tnd.c:139), the program
counter of main and of each child. -/
structure TndState where
  nthreads : Nat
  spawned : Nat
  gcount : Nat
  all_done : Nat
  barrierArrivals : Nat
  mainPC : MainPC
  child : Nat → ChildPC

/-- The state in which main enters its spawn loop (tnd.c:352): nothing
spawned, gcount and all_done zeroed by main (tnd.c:317-318), no barrier
arrivals, no child yet created. -/
def tndInit (n : Nat) : TndState :=
  { nthreads := n, spawned := 0, gcount := 0, all_done := 0,
    barrierArrivals := 0, mainPC := .spawning, child := fun _ => .unborn }

/-- Interleaving semantics of the tnd run: one step of main or of one
spawned child.  Main spawns children one by one (tnd.c:352-364), then
arrives at barrier_start (tnd.c:366), which releases only once all of its
nthreads + 1 parties have arrived; it then spins until gcount reaches
nthreads (tnd.c:368), arrives at the barrier again (tnd.c:370), spins
until all_done reaches nthreads (tnd.c:372), joins and reports
(tnd.c:374-380), and finishes (tnd.c:382-383).  No rule increments
gcount: no statement in tnd.c ever does.  Child rules follow the ChildPC
description; the exit rules are the failure paths, each of which sets
done and increments all_done before returning. -/
inductive TndStep : TndState → TndState → Prop where
  | spawnOne (s : TndState) (h : s.mainPC = .spawning) (hlt : s.spawned < s.nthreads) :
      TndStep s { s with spawned := s.spawned + 1,
                         child := fun i => if i = s.spawned then .entry else s.child i }
  | spawnDone (s : TndState) (h : s.mainPC = .spawning) (heq : s.spawned = s.nthreads) :
      TndStep s { s with mainPC := .barrier1 }
  | mainArrive1 (s : TndState) (h : s.mainPC = .barrier1) :
      TndStep s { s with mainPC := .blocked1, barrierArrivals := s.barrierArrivals + 1 }
  | mainRelease1 (s : TndState) (h : s.mainPC = .blocked1)
      (hfull : s.barrierArrivals = s.nthreads + 1) :
      TndStep s { s with mainPC := .pollGcount }
  | pollGcountExit (s : TndState) (h : s.mainPC = .pollGcount)
      (hge : s.nthreads ≤ s.gcount) :
      TndStep s { s with mainPC := .barrier2 }
  | mainArrive2 (s : TndState) (h : s.mainPC = .barrier2) :
      TndStep s { s with mainPC := .blocked2, barrierArrivals := s.barrierArrivals + 1 }
  | mainRelease2 (s : TndState) (h : s.mainPC = .blocked2)
      (hfull : s.barrierArrivals = s.nthreads + 1) :
      TndStep s { s with mainPC := .pollAllDone }
  | pollAllDoneExit (s : TndState) (h : s.mainPC = .pollAllDone)
      (hge : s.nthreads ≤ s.all_done) :
      TndStep s { s with mainPC := .joining }
  | joinDone (s : TndState) (h : s.mainPC = .joining) :
      TndStep s { s with mainPC := .finished }
  | childEntryFail (s : TndState) (i : Nat) (hi : i < s.spawned)
      (h : s.child i = .entry) :
      TndStep s { s with all_done := s.all_done + 1,
                         child := fun j => if j = i then .exited else s.child j }
  | childEntryOk (s : TndState) (i : Nat) (hi : i < s.spawned)
      (h : s.child i = .entry) :
      TndStep s { s with child := fun j => if j = i then .loopTop else s.child j }
  | childMigrateFail (s : TndState) (i : Nat) (hi : i < s.spawned)
      (h : s.child i = .loopTop) :
      TndStep s { s with all_done := s.all_done + 1,
                         child := fun j => if j = i then .exited else s.child j }
  | childMigrateOk (s : TndState) (i : Nat) (hi : i < s.spawned)
      (h : s.child i = .loopTop) :
      TndStep s { s with child := fun j => if j = i then .atSink else s.child j }
  | childSinkFail (s : TndState) (i : Nat) (hi : i < s.spawned)
      (h : s.child i = .atSink) :
      TndStep s { s with all_done := s.all_done + 1,
                         child := fun j => if j = i then .exited else s.child j }
  | childSinkOk (s : TndState) (i : Nat) (hi : i < s.spawned)
      (h : s.child i = .atSink) :
      TndStep s { s with child := fun j => if j = i then .sleeping else s.child j }
  | childWake (s : TndState) (i : Nat) (hi : i < s.spawned)
      (h : s.child i = .sleeping) :
      TndStep s { s with child := fun j => if j = i then .loopTop else s.child j }

/-- States reachable from the initial state of a tnd run with n requested
threads. -/
inductive TndReach (n : Nat) : TndState → Prop where
  | init : TndReach n (tndInit n)
  | step {s t : TndState} : TndReach n s → TndStep s t → TndReach n t

/-- Sign of a bitwise or of integers: the result is negative exactly when
one of the operands is.  On values an int can hold this is the sign of
the 32-bit machine bitwise-or used by the validation checks. -/
theorem lor_neg_iff (s k : Int) : Int.lor s k < 0 ↔ s < 0 ∨ k < 0 := by
  cases s <;> cases k <;>
    simp [Int.lor, Int.negSucc_lt_zero, Int.ofNat_nonneg, not_lt_of_le]

/-- The range rejection condition of main (ft2c.c:342, tnd.c:341) holds
exactly when one of the two ids lies outside the valid node interval. -/
theorem range_reject_cond_iff (s k : Int) :
    (Int.lor s k < 0 ∨ s ≥ MAX_POPCORN_NODES ∨ k ≥ MAX_POPCORN_NODES) ↔
    ¬(0 ≤ s ∧ s < MAX_POPCORN_NODES ∧ 0 ≤ k ∧ k < MAX_POPCORN_NODES) := by
  rw [lor_neg_iff]
  unfold MAX_POPCORN_NODES
  omega

/-- Node info snapshot of a healthy two-node cluster seen from node 0:
getnodeinfo succeeds, the current node is 0, every node online. -/
def okNodeInfo : GetNodeInfo := ⟨0, 0, fun _ => ⟨1, 1⟩⟩

/-- Thread info snapshot that reports the thread on node 0. -/
def okThreadInfo : GetThreadInfo := ⟨0, 0⟩

/-- Child oracle of a fully benign ft2c run from node 0 to node 1: every
check passes and both gettid results after hops equal the original. -/
def benignChildEnv : Ft2cEnv :=
  { source_tid := 7, nodeinfo1 := okNodeInfo, threadinfo1 := okThreadInfo,
    migrate_out := 0, sink_tid := 7, migrate_back := 0, temp_tid := 7,
    nodeinfo2 := okNodeInfo }

/-- Main oracle of a fully benign ft2c run. -/
def benignMainEnv : Ft2cMainEnv := ⟨100, 0, benignChildEnv⟩

/-- Child oracle of an ft2c run in which the gettid result after the
return hop differs from the one captured before the first hop. -/
def mismatchChildEnv : Ft2cEnv :=
  { benignChildEnv with temp_tid := 8 }

/-- Main oracle of the identity-mismatch ft2c run. -/
def mismatchMainEnv : Ft2cMainEnv := ⟨100, 0, mismatchChildEnv⟩

/-- C1: the claim says the process exit code is non-zero whenever a task
fails.  In the ft2c variant this is false on the code: the child's error
is kept in a thread-local variable, the child always returns NULL, and
the join writes that NULL over the local pointer errno_ptr rather than
over ft2c_errno (ft2c.c:366-369), so on the concrete run below the task
fails with an identity mismatch and main nevertheless prints the TEST
PASSED line and returns 0. -/
theorem ft2c_exit_code_ignores_task_failure :
    (ft2c_main 3 0 1 mismatchMainEnv).task_verdict =
      some (.failed .identityMismatch) ∧
    (ft2c_main 3 0 1 mismatchMainEnv).exit_code = 0 ∧
    (ft2c_main 3 0 1 mismatchMainEnv).passed_msg = true := by decide

/-- Child oracle of an ft2c run whose return-hop migrate call reports the
destination-offline code -EAGAIN while everything else is benign. -/
def offlineReturnChildEnv : Ft2cEnv :=
  { benignChildEnv with migrate_back := -EAGAIN }

/-- C5: the claim says a task whose return-hop migrate returns the
destination-offline code terminates as Failed with a classified migration
error.  False on the code: both variants assign the return-hop code to
the thread err field and never examine it (ft2c.c:273, tnd.c:296).  On
the concrete runs below the ft2c task still reaches the passed verdict
and the tnd iteration still continues into the sleep instead of exiting. -/
theorem return_hop_offline_code_ignored :
    ft2c_child offlineReturnChildEnv 0 1 = .passed ∧
    tnd_iteration ⟨0, 7, -EAGAIN⟩ = .continued 1 := by decide

/-- C8: the claim says a wrong number of positional arguments is reported
on the standard diagnostic stream and the process exits non-zero without
running any task.  False on the code: the argc check only prints (with
printf, to standard output) and does not return (ft2c.c:325-328,
tnd.c:326-328).  On the concrete run below, ft2c invoked with one extra
argument prints the usage failure message, then allocates and runs the
task anyway and exits 0. -/
theorem ft2c_usage_error_does_not_abort :
    (ft2c_main 4 0 1 benignMainEnv).usage_msg = true ∧
    (ft2c_main 4 0 1 benignMainEnv).task_created = true ∧
    (ft2c_main 4 0 1 benignMainEnv).task_verdict = some .passed ∧
    (ft2c_main 4 0 1 benignMainEnv).exit_code = 0 ∧
    (tnd_main_precheck 5 0 1 100).usage_msg = true ∧
    (tnd_main_precheck 5 0 1 100).early_exit = none := by decide

/-- C3: equal source and sink ids are rejected with the configuration
failure message and a -1 return from main before any task storage is
allocated or any thread started, in both variants (ft2c.c:336-341,
tnd.c:337-340). -/
theorem source_eq_sink_rejected_before_tasks
    (argc argcT s k pid : Int) (env : Ft2cMainEnv) (h : s = k) :
    (ft2c_main argc s k env).exit_code = -1 ∧
    (ft2c_main argc s k env).task_created = false ∧
    (ft2c_main argc s k env).task_verdict = none ∧
    (tnd_main_precheck argcT s k pid).early_exit = some (-1) := by
  subst h
  unfold ft2c_main tnd_main_precheck
  refine ⟨?_, ?_, ?_, ?_⟩ <;> split <;> simp_all

/-- Witness for C3 at the concrete pair 3, 3. -/
theorem source_eq_sink_rejected_before_tasks_witness :
    (3 : Int) = 3 ∧
    ((ft2c_main 3 3 3 benignMainEnv).exit_code = -1 ∧
     (ft2c_main 3 3 3 benignMainEnv).task_created = false ∧
     (ft2c_main 3 3 3 benignMainEnv).task_verdict = none ∧
     (tnd_main_precheck 4 3 3 100).early_exit = some (-1)) :=
  ⟨rfl, source_eq_sink_rejected_before_tasks 3 4 3 3 100 benignMainEnv rfl⟩

/-- C4 counterexample: the claim says the run is rejected exactly when
some id lies outside the valid interval, for every input pair.  The pair
5, 5 refutes the stated equivalence: both ids are in range, yet the run
is rejected, because the equal-ids check fires first. -/
theorem equal_in_range_pair_rejected :
    (ft2c_main 3 5 5 benignMainEnv).task_created = false ∧
    (ft2c_main 3 5 5 benignMainEnv).exit_code = -1 ∧
    (tnd_main_precheck 4 5 5 100).early_exit = some (-1) ∧
    0 ≤ (5 : Int) ∧ (5 : Int) < MAX_POPCORN_NODES := by decide

/-- C4 amended: for every pair of distinct node ids the run is rejected
before any task is created exactly when some id lies outside the interval
from 0 to MAX_POPCORN_NODES, and the combined-bit sign test is negative
exactly when at least one id is negative, so no negative id passes
validation. -/
theorem validation_rejects_iff_out_of_range
    (argc argcT s k pid : Int) (env : Ft2cMainEnv)
    (hne : s ≠ k) (hpid : pid ≠ -1) (hpe : env.source_pid ≠ -1)
    (hmem : env.memalign_err = 0) :
    ((ft2c_main argc s k env).task_created = false ↔
      ¬(0 ≤ s ∧ s < MAX_POPCORN_NODES ∧ 0 ≤ k ∧ k < MAX_POPCORN_NODES)) ∧
    ((tnd_main_precheck argcT s k pid).early_exit.isSome = true ↔
      ¬(0 ≤ s ∧ s < MAX_POPCORN_NODES ∧ 0 ≤ k ∧ k < MAX_POPCORN_NODES)) ∧
    (Int.lor s k < 0 ↔ s < 0 ∨ k < 0) := by
  have hc := range_reject_cond_iff s k
  refine ⟨?_, ?_, lor_neg_iff s k⟩
  · simp only [ft2c_main]
    rw [if_neg hpe, if_neg hne]
    by_cases hr : Int.lor s k < 0 ∨ s ≥ MAX_POPCORN_NODES ∨ k ≥ MAX_POPCORN_NODES
    · rw [if_pos hr]
      simpa using hc.mp hr
    · rw [if_neg hr, if_neg (by simp [hmem])]
      rw [hc] at hr
      push_neg at hr
      simp [hr]
  · simp only [tnd_main_precheck]
    rw [if_neg hpid, if_neg hne]
    by_cases hr : Int.lor s k < 0 ∨ s ≥ MAX_POPCORN_NODES ∨ k ≥ MAX_POPCORN_NODES
    · rw [if_pos hr]
      simpa using hc.mp hr
    · rw [if_neg hr]
      rw [hc] at hr
      push_neg at hr
      simp [hr]

/-- Witness for C4 amended at the out-of-range pair -3, 40 and checking
the sign test on it. -/
theorem validation_rejects_iff_out_of_range_witness :
    (-3 : Int) ≠ 40 ∧ (100 : Int) ≠ -1 ∧ benignMainEnv.source_pid ≠ -1 ∧
    benignMainEnv.memalign_err = 0 ∧
    (((ft2c_main 3 (-3) 40 benignMainEnv).task_created = false ↔
       ¬(0 ≤ (-3 : Int) ∧ (-3 : Int) < MAX_POPCORN_NODES ∧ 0 ≤ (40 : Int) ∧
         (40 : Int) < MAX_POPCORN_NODES)) ∧
     ((tnd_main_precheck 4 (-3) 40 100).early_exit.isSome = true ↔
       ¬(0 ≤ (-3 : Int) ∧ (-3 : Int) < MAX_POPCORN_NODES ∧ 0 ≤ (40 : Int) ∧
         (40 : Int) < MAX_POPCORN_NODES)) ∧
     (Int.lor (-3) 40 < 0 ↔ (-3 : Int) < 0 ∨ (40 : Int) < 0)) :=
  ⟨by decide, by decide, by decide, by decide,
   validation_rejects_iff_out_of_range 3 4 (-3) 40 100 benignMainEnv
     (by decide) (by decide) (by decide) (by decide)⟩

/-- An ft2c child run completes the out-and-back migration and reaches
the final local verification when every check before the comparison of
the re-derived identity passes: a valid initial gettid, a passing node
sanity check, a passing thread sanity check, a successful outbound
migrate, and a valid gettid at the sink. -/
def ft2c_reaches_final_check (env : Ft2cEnv) (s k : Int) : Prop :=
  env.source_tid ≠ -1 ∧
  node_sanity_check env.nodeinfo1 s k = 0 ∧
  thread_sanity_check env.threadinfo1 s = 0 ∧
  env.migrate_out = 0 ∧
  env.sink_tid ≠ -1

instance (env : Ft2cEnv) (s k : Int) : Decidable (ft2c_reaches_final_check env s k) := by
  unfold ft2c_reaches_final_check; infer_instance

/-- C2: for every task that completes the out-and-back migration and
re-derives a valid identity, a passed verdict implies the identity after
the return hop equals the identity captured before the first hop, and a
mismatch terminates the task as failed with the identity-mismatch reason
(ft2c.c:278-293). -/
theorem ft2c_round_trip_identity (env : Ft2cEnv) (s k : Int)
    (hreach : ft2c_reaches_final_check env s k) (hvalid : env.temp_tid ≠ -1) :
    (ft2c_child env s k = .passed → env.temp_tid = env.source_tid) ∧
    (env.temp_tid ≠ env.source_tid →
      ft2c_child env s k = .failed .identityMismatch) := by
  obtain ⟨h1, h2, h3, h4, h5⟩ := hreach
  simp only [ft2c_child, h1, h2, h3, h4, h5, hvalid, if_neg, ite_false,
    ne_eq, not_true_eq_false, not_false_eq_true, if_false, if_true]
  constructor
  · intro hp
    by_contra hne
    simp [h1, h2, h3, h4, h5, hvalid, hne] at hp
  · intro hne
    simp [h1, h2, h3, h4, h5, hvalid, hne]

/-- Witness for C2 at the concrete mismatch run: every hypothesis holds
and the verdict is the identity-mismatch failure. -/
theorem ft2c_round_trip_identity_witness :
    ft2c_reaches_final_check mismatchChildEnv 0 1 ∧
    mismatchChildEnv.temp_tid ≠ -1 ∧
    mismatchChildEnv.temp_tid ≠ mismatchChildEnv.source_tid ∧
    ft2c_child mismatchChildEnv 0 1 = .failed .identityMismatch :=
  ⟨by decide, by decide, by decide,
   (ft2c_round_trip_identity mismatchChildEnv 0 1 (by decide) (by decide)).2
     (by decide)⟩

/-- A tnd child that has passed its entry checks is still alive after n
loop iterations fed from the oracle stream envs: its done flag is still
0 and it has not returned. -/
def tnd_child_alive (entry : TndEntryEnv) (s k : Int)
    (envs : Nat → TndIterEnv) (n : Nat) : Bool :=
  (tnd_entry entry s k).isNone && tnd_loop_runs envs n

/-- C7: in the tnd variant a task that encounters no failure never
reaches a terminal state: for every iteration count n it is still alive,
its done flag unset, and the iteration it executes next ends in the fixed
one-second sleep and continues.  The child has no success exit at all -
IterOutcome has no passed alternative because no path of the while(1)
loop (tnd.c:236-303) returns without an error - so the thread can only
stop by external action. -/
theorem tnd_benign_task_never_terminates
    (entry : TndEntryEnv) (s k : Int) (envs : Nat → TndIterEnv)
    (htid : entry.source_tid ≠ -1)
    (hsanity : (tnd_node_sanity_check entry.nodeinfo s k).1 = 0)
    (hben : ∀ i, (envs i).migrate_out = 0 ∧ (envs i).sink_tid ≠ -1)
    (n : Nat) :
    tnd_child_alive entry s k envs n = true ∧
    tnd_iteration (envs n) = .continued 1 := by
  have hiter : ∀ i, tnd_iteration (envs i) = .continued 1 := by
    intro i
    obtain ⟨ha, hb⟩ := hben i
    simp [tnd_iteration, ha, hb]
  have hentry : tnd_entry entry s k = none := by
    simp [tnd_entry, htid, hsanity]
  refine ⟨?_, hiter n⟩
  unfold tnd_child_alive
  rw [hentry]
  simp only [Option.isNone_none, Bool.true_and]
  induction n with
  | zero => rfl
  | succ m ih => simp [tnd_loop_runs, ih, hiter m]

/-- Constant benign oracle stream for the tnd loop: every outbound
migrate succeeds and every sink gettid returns 7. -/
def benignIterStream : Nat → TndIterEnv := fun _ => ⟨0, 7, 0⟩

/-- Witness for C7 at the concrete benign oracle stream, checked at
iteration 3. -/
theorem tnd_benign_task_never_terminates_witness :
    (⟨7, okNodeInfo⟩ : TndEntryEnv).source_tid ≠ -1 ∧
    (tnd_node_sanity_check okNodeInfo 0 1).1 = 0 ∧
    (∀ i, (benignIterStream i).migrate_out = 0 ∧
      (benignIterStream i).sink_tid ≠ -1) ∧
    tnd_child_alive ⟨7, okNodeInfo⟩ 0 1 benignIterStream 3 = true ∧
    tnd_iteration (benignIterStream 3) = .continued 1 :=
  ⟨by decide, by decide, fun _ => ⟨rfl, by simp [benignIterStream]⟩,
   (tnd_benign_task_never_terminates ⟨7, okNodeInfo⟩ 0 1 benignIterStream
     (by decide) (by decide) (fun _ => ⟨rfl, by simp [benignIterStream]⟩) 3).1,
   (tnd_benign_task_never_terminates ⟨7, okNodeInfo⟩ 0 1 benignIterStream
     (by decide) (by decide) (fun _ => ⟨rfl, by simp [benignIterStream]⟩) 3).2⟩

/-- Node info snapshot seen from node 2 of a healthy cluster, used to
drive the sanity check of a task travelling from node 2 to node 3. -/
def node2Info : GetNodeInfo := ⟨0, 2, fun _ => ⟨1, 1⟩⟩

/-- C9: the claim says the stores node_sanity_check performs into the
two-element arch_types array are in bounds for every accepted pair of
ids.  False on the code: validation accepts any distinct ids in the valid
node interval (tnd.c:341-344), and for the accepted pair 2, 3 the check
stores through indices 2 and 3 of the two-element array (tnd.c:117,
tnd.c:173-174), both out of bounds. -/
theorem tnd_arch_store_out_of_bounds :
    (tnd_main_precheck 4 2 3 100).early_exit = none ∧
    (tnd_node_sanity_check node2Info 2 3).1 = 0 ∧
    (tnd_node_sanity_check node2Info 2 3).2.map Prod.fst = [2, 3] ∧
    ¬ arch_store_in_bounds 2 ∧ ¬ arch_store_in_bounds 3 := by decide

/-- Main program counters at or past the second barrier: positions main
can only occupy after its gcount polling loop has exited. -/
def pastGcountPoll : MainPC → Prop
  | .barrier2 => True
  | .blocked2 => True
  | .pollAllDone => True
  | .joining => True
  | .finished => True
  | _ => False

/-- Reachability invariant of a tnd run: the requested thread count is
preserved, gcount stays at 0 because no statement increments it, and
whenever at least one thread was requested, main never passes its gcount
polling loop. -/
theorem tnd_reach_invariant (n : Nat) (s : TndState) (hs : TndReach n s) :
    s.nthreads = n ∧ s.gcount = 0 ∧ (1 ≤ n → ¬ pastGcountPoll s.mainPC) := by
  induction hs with
  | init => exact ⟨rfl, rfl, fun _ h => h⟩
  | step _ hstep ih =>
    obtain ⟨hN, hg, hp⟩ := ih
    cases hstep with
    | spawnOne h hlt => exact ⟨hN, hg, hp⟩
    | spawnDone h heq => exact ⟨hN, hg, fun _ h2 => h2⟩
    | mainArrive1 h => exact ⟨hN, hg, fun _ h2 => h2⟩
    | mainRelease1 h hfull => exact ⟨hN, hg, fun _ h2 => h2⟩
    | pollGcountExit h hge => exact ⟨hN, hg, fun hn _ => by omega⟩
    | mainArrive2 h => exact ⟨hN, hg, fun hn _ => hp hn (by rw [h]; trivial)⟩
    | mainRelease2 h hfull => exact ⟨hN, hg, fun hn _ => hp hn (by rw [h]; trivial)⟩
    | pollAllDoneExit h hge => exact ⟨hN, hg, fun hn _ => hp hn (by rw [h]; trivial)⟩
    | joinDone h => exact ⟨hN, hg, fun hn _ => hp hn (by rw [h]; trivial)⟩
    | childEntryFail i hi h => exact ⟨hN, hg, hp⟩
    | childEntryOk i hi h => exact ⟨hN, hg, hp⟩
    | childMigrateFail i hi h => exact ⟨hN, hg, hp⟩
    | childMigrateOk i hi h => exact ⟨hN, hg, hp⟩
    | childSinkFail i hi h => exact ⟨hN, hg, hp⟩
    | childSinkOk i hi h => exact ⟨hN, hg, hp⟩
    | childWake i hi h => exact ⟨hN, hg, hp⟩

/-- C10: in the tnd variant gcount starts at 0 and no statement ever
increments it, so in every reachable state of a run with at least one
requested thread the polling condition gcount less than nthreads still
holds and main has not reached the join loop or the suite report
(tnd.c:318, tnd.c:368, tnd.c:374-382). -/
theorem tnd_coordinator_never_joins (n : Nat) (s : TndState)
    (hn : 1 ≤ n) (hs : TndReach n s) :
    s.gcount = 0 ∧ s.gcount < s.nthreads ∧
    s.mainPC ≠ .joining ∧ s.mainPC ≠ .finished := by
  obtain ⟨hN, hg, hp⟩ := tnd_reach_invariant n s hs
  refine ⟨hg, by omega, ?_, ?_⟩ <;> intro h <;>
    exact hp hn (by rw [h]; trivial)

/-- Witness for C10 at the initial state of a run with one requested
thread. -/
theorem tnd_coordinator_never_joins_witness :
    1 ≤ 1 ∧
    ((tndInit 1).gcount = 0 ∧ (tndInit 1).gcount < (tndInit 1).nthreads ∧
     (tndInit 1).mainPC ≠ .joining ∧ (tndInit 1).mainPC ≠ .finished) :=
  ⟨Nat.le_refl 1, tnd_coordinator_never_joins 1 (tndInit 1) (Nat.le_refl 1)
    TndReach.init⟩

/-- C6: the claim says no task begins its node sanity checks, let alone a
migration, before every task and the coordinator have reached the startup
barrier.  False on the code of the tnd variant: child_thread contains no
pthread_barrier_wait at all, so an interleaving exists in which the first
thread performs its sanity checks and a successful outbound migration
while main is still in its spawn loop, the second thread is not yet
created and nobody has arrived at the barrier. -/
theorem tnd_child_migrates_before_all_spawned :
    ∃ s : TndState, TndReach 2 s ∧
      s.child 0 = ChildPC.atSink ∧ s.child 1 = ChildPC.unborn ∧
      s.spawned = 1 ∧ s.nthreads = 2 ∧
      s.barrierArrivals = 0 ∧ s.mainPC = MainPC.spawning := by
  refine ⟨_, TndReach.step (TndReach.step (TndReach.step TndReach.init
      (TndStep.spawnOne (tndInit 2) rfl (by decide)))
      (TndStep.childEntryOk _ 0 (by decide) (by decide)))
      (TndStep.childMigrateOk _ 0 (by decide) (by decide)),
    by decide, by decide, rfl, rfl, rfl, rfl⟩
